import Mathlib

/-!
Verification of the console output facility in `src/shell.rs` (radvisor).

The Rust module is shallowly embedded: stateful writes become explicit
buffer-passing, `io::Result` and arithmetic panics become an explicit
result type, and the two external runtime queries (`atty::is` terminal
detection and the `ioctl` width probe in `mod imp`) together with the
`textwrap::wrap_iter` dependency become explicit function parameters, so
theorems quantify over their outcomes.  Machine integers (`usize`) are
`Nat`; the one place the Rust code subtracts `usize` values is modelled
with an explicit underflow check (`usizeSub`), since Rust aborts (debug)
or wraps (release) on underflow.
-/

namespace Radvisor

/-- Maximum length of status string when being justified
(`JUSTIFY_STATUS_LEN` in shell.rs). -/
def JUSTIFY_STATUS_LEN : Nat := 12

/-- The requested verbosity of the program output (`Verbosity` in shell.rs). -/
inductive Verbosity
  | Verbose
  | Normal
  | Quiet
deriving DecidableEq

/-- Mode of the color output of the process (`ColorMode` in shell.rs). -/
inductive ColorMode
  | Auto
  | Always
  | Never
deriving DecidableEq

/-- Modelled from the spec: the settings record from the external `cli`
module (`Opts`), "a record with fields `quiet: bool`, `verbose: bool`,
`color_mode: ColorMode` (already parsed)".  Its definition is not under
`src/`; only its use in shell.rs is. -/
structure Opts where
  quiet : Bool
  verbose : Bool
  color_mode : ColorMode
deriving DecidableEq

/-- `Verbosity::from_opts` in shell.rs. -/
def Verbosity.from_opts (opts : Opts) : Verbosity :=
  match opts.quiet with
  | true => Verbosity.Quiet
  | false =>
    match opts.verbose with
    | true => Verbosity.Verbose
    | false => Verbosity.Normal

/-- Modelled from the spec: `ParseFailure` from the external `cli` module,
which records a "field name + offending value reported to the caller".
Its definition is not under `src/`. -/
structure ParseFailure where
  field : String
  value : String
deriving DecidableEq

/-- Modelled from the spec: `ParseFailure::new(field, value)` constructs the
failure record from the field name and the offending value. -/
def ParseFailure.new (field value : String) : ParseFailure :=
  { field := field, value := value }

/-- Model of Rust `str::to_lowercase` (per-character lowercasing; the inputs
relevant here are ASCII, where this agrees with the Rust function). -/
def toLowercase (s : String) : String := String.mk (s.data.map Char.toLower)

/-- `impl FromStr for ColorMode` in shell.rs: lowercase the input, accept
exactly "auto" / "always" / "never", otherwise fail with
`ParseFailure::new("color mode", s)`.  (The Rust `match` on string literals
is written as an if-chain, which is how such a match evaluates.) -/
def ColorMode.from_str (s : String) : Except ParseFailure ColorMode :=
  let l := toLowercase s
  if l = "auto" then Except.ok ColorMode.Auto
  else if l = "always" then Except.ok ColorMode.Always
  else if l = "never" then Except.ok ColorMode.Never
  else Except.error (ParseFailure.new "color mode" s)

/-- `termcolor::ColorChoice` (the variants of the external enum). -/
inductive ColorChoice
  | Always
  | AlwaysAnsi
  | Auto
  | Never
deriving DecidableEq

/-- `atty::Stream` values used by shell.rs. -/
inductive AttyStream
  | Stdout
  | Stderr
deriving DecidableEq

/-- `ColorMode::into_termcolor` in shell.rs.  The runtime terminal check
`atty::is(stream)` is passed in as the function `is`. -/
def ColorMode.into_termcolor (m : ColorMode) (is : AttyStream → Bool)
    (stream : AttyStream) : ColorChoice :=
  match m with
  | ColorMode.Always => ColorChoice.Always
  | ColorMode.Never => ColorChoice.Never
  | ColorMode.Auto =>
    if is stream then ColorChoice.Auto else ColorChoice.Never

/-- `termcolor::Color` values used by shell.rs. -/
inductive Color
  | Green
  | Cyan
  | Yellow
  | Red
deriving DecidableEq

/-- `termcolor::ColorSpec`: bold flag and optional foreground color
(the two properties shell.rs sets). -/
structure ColorSpec where
  bold : Bool
  fg : Option Color
deriving DecidableEq

/-- One write observed on a color-capable terminal stream: a color reset,
a color-spec change, or literal text. -/
inductive OutEvent
  | reset
  | set_color (spec : ColorSpec)
  | text (s : String)
deriving DecidableEq

/-- Model of `termcolor::StandardStream`: its color capability (external),
whether writes to it fail (modelling a broken descriptor: the first write
returns an error and nothing is emitted), and the events written so far. -/
structure StandardStream where
  supports_color : Bool
  failing : Bool
  buf : List OutEvent
deriving DecidableEq

/-- Model of a `Box<dyn Write + Send>` plain byte sink: whether writes fail
(first write errors, nothing emitted) and the bytes written so far. -/
structure PlainWriter where
  failing : Bool
  buf : String
deriving DecidableEq

/-- `enum OutSink` in shell.rs: a plain writable object, or a standard
stream together with the color mode, stream type and terminal flag captured
at construction. -/
inductive OutSink
  | Write (w : PlainWriter)
  | Stream (color_mode : ColorMode) (stream : StandardStream)
      (stream_type : AttyStream) (is_tty : Bool)
deriving DecidableEq

/-- `OutSink::width` in shell.rs: probe the terminal width only for a
stream sink whose `is_tty` flag is set.  The platform probe `imp::width`
(an `ioctl`, or always-`None` off unix) is the parameter `probe`. -/
def OutSink.width (probe : AttyStream → Option Nat) : OutSink → Option Nat
  | OutSink.Stream _ _ stream_type true => probe stream_type
  | _ => none

/-- A run of `n` space characters (Rust `" ".repeat(n)`). -/
def spaces (n : Nat) : String := String.mk (List.replicate n ' ')

/-- Rust format `{:>width$}`: right-align by padding with spaces on the
left up to `w` columns; wider values overflow unpadded. -/
def padLeft (s : String) (w : Nat) : String := spaces (w - s.length) ++ s

/-- Rust format `{:width$}` on a `Display` value: left-align by padding
with spaces on the right up to `w` columns; wider values overflow. -/
def padRight (s : String) (w : Nat) : String := s ++ spaces (w - s.length)

/-- Rust `usize` subtraction `a - b`: well-defined only when `b ≤ a`;
on underflow the program panics (debug profile) or wraps (release), so the
result is modelled as `none` there. -/
def usizeSub (a b : Nat) : Option Nat :=
  if b ≤ a then some (a - b) else none

/-- Result of a sink print: success carrying the updated sink, an I/O
error (`io::Result` `Err`), or an abort from unchecked arithmetic. -/
inductive PrintResult (α : Type)
  | ok (a : α)
  | ioErr
  | panicked
deriving DecidableEq

/-- The wrapped-line emission loop in `OutSink::print` (the `for line in
lines` loop with its `is_first` flag): the first line gets a single leading
space, later lines get `indent` plus a space, each ends with a newline. -/
def emitLines (indent : String) : Bool → List String → String
  | _, [] => ""
  | is_first, l :: rest =>
    (if is_first then " " ++ l ++ "\n" else indent ++ " " ++ l ++ "\n")
      ++ emitLines indent false rest

/-- `OutSink::print` in shell.rs.  `wrap` models `textwrap::wrap_iter`
(message, wrap width ↦ wrapped lines) and `probe` models `imp::width`.
`status` and `message` are the `Display` forms of the arguments. -/
def OutSink.print (wrap : String → Nat → List String)
    (probe : AttyStream → Option Nat) (sink : OutSink) (status : String)
    (message : Option String) (color : Color) (justified : Bool) :
    PrintResult OutSink :=
  let width : Option Nat := sink.width probe
  match sink with
  | OutSink.Stream color_mode stream stream_type is_tty =>
    if stream.failing then PrintResult.ioErr
    else
      let hdr : List OutEvent :=
        if justified && is_tty then
          [OutEvent.text (padLeft status JUSTIFY_STATUS_LEN)]
        else
          [OutEvent.text status, OutEvent.set_color ⟨true, none⟩,
           OutEvent.text ":"]
      let offset : Nat :=
        if justified && is_tty then JUSTIFY_STATUS_LEN else status.length + 1
      let ev : List OutEvent :=
        [OutEvent.reset, OutEvent.set_color ⟨true, some color⟩] ++ hdr
          ++ [OutEvent.reset]
      match message with
      | none =>
        PrintResult.ok (OutSink.Stream color_mode
          { stream with buf := stream.buf ++ ev ++ [OutEvent.text " "] }
          stream_type is_tty)
      | some m =>
        match width with
        | none =>
          PrintResult.ok (OutSink.Stream color_mode
            { stream with
              buf := stream.buf ++ ev ++ [OutEvent.text (" " ++ m ++ "\n")] }
            stream_type is_tty)
        | some w =>
          match usizeSub w (offset + 1) with
          | none => PrintResult.panicked
          | some ww =>
            let lines := wrap m ww
            PrintResult.ok (OutSink.Stream color_mode
              { stream with
                buf := stream.buf ++ ev
                  ++ [OutEvent.text (emitLines (spaces offset) true lines)] }
              stream_type is_tty)
  | OutSink.Write w =>
    if w.failing then PrintResult.ioErr
    else
      let hdr : String :=
        if justified then padRight status JUSTIFY_STATUS_LEN else status ++ ":"
      let tail : String :=
        match message with
        | some m => " " ++ m ++ "\n"
        | none => " "
      PrintResult.ok (OutSink.Write { w with buf := w.buf ++ hdr ++ tail })

/-- `struct Shell` in shell.rs (the mutexes around the two sinks are
dropped: the model is sequential, and lock poisoning is out of scope). -/
structure Shell where
  verbosity : Verbosity
  out : OutSink
  err : OutSink
deriving DecidableEq

/-- `Shell::new` in shell.rs: stream-backed sinks for stdout/stderr with
the color choice resolved once at construction.  `is` models `atty::is`
and `mkStream` models `StandardStream::stdout`/`::stderr` (the handle the
external crate returns for a given stream and color choice). -/
def Shell.new (opts : Opts) (is : AttyStream → Bool)
    (mkStream : AttyStream → ColorChoice → StandardStream) : Shell :=
  { verbosity := Verbosity.from_opts opts
    out := OutSink.Stream opts.color_mode
      (mkStream AttyStream.Stdout
        (opts.color_mode.into_termcolor is AttyStream.Stdout))
      AttyStream.Stdout (is AttyStream.Stdout)
    err := OutSink.Stream opts.color_mode
      (mkStream AttyStream.Stderr
        (opts.color_mode.into_termcolor is AttyStream.Stderr))
      AttyStream.Stderr (is AttyStream.Stderr) }

/-- `Shell::from_write` in shell.rs: plain writable sinks, max verbosity. -/
def Shell.from_write (stdout stderr : PlainWriter) : Shell :=
  { out := OutSink.Write stdout
    err := OutSink.Write stderr
    verbosity := Verbosity.Verbose }

/-- `Shell::print` in shell.rs: do nothing when quiet, otherwise print to
the output sink and discard (`let _ = ...`) any I/O error.  A `none` result
models a panic propagating out of the sink print. -/
def Shell.print (wrap : String → Nat → List String)
    (probe : AttyStream → Option Nat) (sh : Shell) (status : String)
    (message : Option String) (color : Color) (justified : Bool) :
    Option Shell :=
  match sh.verbosity with
  | Verbosity.Quiet => some sh
  | _ =>
    match sh.out.print wrap probe status message color justified with
    | PrintResult.ok s => some { sh with out := s }
    | PrintResult.ioErr => some sh
    | PrintResult.panicked => none

/-- `Shell::status` in shell.rs. -/
def Shell.status (wrap : String → Nat → List String)
    (probe : AttyStream → Option Nat) (sh : Shell) (status message : String) :
    Option Shell :=
  sh.print wrap probe status (some message) Color.Green true

/-- `Shell::status_header` in shell.rs. -/
def Shell.status_header (wrap : String → Nat → List String)
    (probe : AttyStream → Option Nat) (sh : Shell) (status : String) :
    Option Shell :=
  sh.print wrap probe status none Color.Cyan true

/-- `Shell::error` in shell.rs: prints to the error sink without consulting
verbosity, discarding (`let _ = ...`) any I/O error. -/
def Shell.error (wrap : String → Nat → List String)
    (probe : AttyStream → Option Nat) (sh : Shell) (message : String) :
    Option Shell :=
  match sh.err.print wrap probe "(error)" (some message) Color.Red true with
  | PrintResult.ok s => some { sh with err := s }
  | PrintResult.ioErr => some sh
  | PrintResult.panicked => none

/-- `Shell::warn` in shell.rs. -/
def Shell.warn (wrap : String → Nat → List String)
    (probe : AttyStream → Option Nat) (sh : Shell) (message : String) :
    Option Shell :=
  match sh.verbosity with
  | Verbosity.Quiet => some sh
  | _ => sh.print wrap probe "(warning)" (some message) Color.Yellow true

/-- `Shell::note` in shell.rs. -/
def Shell.note (wrap : String → Nat → List String)
    (probe : AttyStream → Option Nat) (sh : Shell) (message : String) :
    Option Shell :=
  sh.print wrap probe "(note)" (some message) Color.Cyan true

/-- `Shell::color_mode` in shell.rs. -/
def Shell.color_mode (sh : Shell) : ColorMode :=
  match sh.out with
  | OutSink.Stream color_mode _ _ _ => color_mode
  | OutSink.Write _ => ColorMode.Never

/-- `Shell::supports_color` in shell.rs. -/
def Shell.supports_color (sh : Shell) : Bool :=
  match sh.out with
  | OutSink.Write _ => false
  | OutSink.Stream _ stream _ _ => stream.supports_color

/-- A trivial instantiation of the `textwrap::wrap_iter` parameter: the
whole message on one line (used only to build concrete test inputs). -/
def wrap1 : String → Nat → List String := fun s _ => [s]

/-- A width probe reporting no terminal width (used only to build concrete
test inputs). -/
def probeNone : AttyStream → Option Nat := fun _ => none

/-- A shell whose two sinks both fail on every write (used only to build
concrete test inputs exercising the I/O error path). -/
def failingShell : Shell :=
  ⟨Verbosity.Verbose, OutSink.Write ⟨true, ""⟩, OutSink.Write ⟨true, ""⟩⟩

/-- C5: for every requested `ColorMode` and every terminal-detection
outcome, `into_termcolor` resolves `Always` to always-color and `Never` to
never-color regardless of detection, and `Auto` to auto-color exactly when
the stream is a detected terminal, otherwise never-color. -/
theorem into_termcolor_resolution (is : AttyStream → Bool)
    (stream : AttyStream) :
    ColorMode.Always.into_termcolor is stream = ColorChoice.Always ∧
    ColorMode.Never.into_termcolor is stream = ColorChoice.Never ∧
    ColorMode.Auto.into_termcolor is stream =
      (if is stream then ColorChoice.Auto else ColorChoice.Never) :=
  ⟨rfl, rfl, rfl⟩

/-- C8: for every pair of plain writable sinks, the Shell built with
`from_write` reports `supports_color` false and `color_mode` `Never`, and
has its verbosity forced to `Verbose`. -/
theorem from_write_properties (stdout stderr : PlainWriter) :
    (Shell.from_write stdout stderr).supports_color = false ∧
    (Shell.from_write stdout stderr).color_mode = ColorMode.Never ∧
    (Shell.from_write stdout stderr).verbosity = Verbosity.Verbose :=
  ⟨rfl, rfl, rfl⟩

/-- C3 (code bug): on a terminal of width 10, a justified stream-sink print
with a message occupies 12 columns and the wrap width `10 - (12 + 1)`
underflows `usize`: the print aborts (debug) or wraps to a huge width
(release) instead of treating the non-positive result as width 1. -/
theorem wrap_width_underflow :
    OutSink.print wrap1 (fun _ => some 10)
      (OutSink.Stream ColorMode.Auto ⟨true, false, []⟩ AttyStream.Stdout true)
      "(error)" (some "hello world") Color.Red true
      = PrintResult.panicked := by
  decide

/-- C1 counterexample: with verbosity `Quiet`, `note` emits nothing at all
(the shell and both sink buffers are unchanged), contradicting the claim
that `note` emits even when verbosity is `Quiet`. -/
theorem note_quiet_counterexample :
    Shell.note wrap1 probeNone
      ⟨Verbosity.Quiet, OutSink.Write ⟨false, ""⟩, OutSink.Write ⟨false, ""⟩⟩
      "hello" =
      some ⟨Verbosity.Quiet, OutSink.Write ⟨false, ""⟩,
        OutSink.Write ⟨false, ""⟩⟩ := by
  decide

/-- C1 (amended): `note(message)` writes the status token "(note)" plus the
message to the output channel whenever verbosity is not `Quiet`; when
verbosity is `Quiet` it emits nothing (the error channel is untouched in
either case). -/
theorem note_emits_unless_quiet (wrap : String → Nat → List String)
    (probe : AttyStream → Option Nat) (v : Verbosity) (m b e : String) :
    Shell.note wrap probe
      ⟨v, OutSink.Write ⟨false, b⟩, OutSink.Write ⟨false, e⟩⟩ m =
      some (if v = Verbosity.Quiet then
        ⟨v, OutSink.Write ⟨false, b⟩, OutSink.Write ⟨false, e⟩⟩
      else
        ⟨v, OutSink.Write
          ⟨false, b ++ padRight "(note)" JUSTIFY_STATUS_LEN ++ (" " ++ m ++ "\n")⟩,
            OutSink.Write ⟨false, e⟩⟩) := by
  cases v <;> rfl

/-- C4 counterexample: the plain-sink (`Write`-variant) non-justified print
path appends a colon directly after the status token, contradicting the
claim that the plain sink never appends a colon. -/
theorem write_nonjustified_colon_counterexample :
    OutSink.print wrap1 probeNone (OutSink.Write ⟨false, ""⟩) "st" none
      Color.Green false =
      PrintResult.ok (OutSink.Write ⟨false, "st: "⟩) := by
  decide

/-- C4 (amended): the plain-sink print writes, for every color: when
justified, the status left-aligned and padded to width 12 with no colon;
when non-justified, the status at natural width followed immediately by a
colon (as in the terminal non-justified path, but without its bold color
styling — no color events are emitted at all); then a space plus message
plus newline when a message is present, else a single trailing space. -/
theorem write_print_format (wrap : String → Nat → List String)
    (probe : AttyStream → Option Nat) (st : String) (message : Option String)
    (b : String) (c : Color) (j : Bool) :
    OutSink.print wrap probe (OutSink.Write ⟨false, b⟩) st message c j =
      PrintResult.ok (OutSink.Write ⟨false,
        b ++ (if j then padRight st JUSTIFY_STATUS_LEN else st ++ ":") ++
          match message with
          | some m => " " ++ m ++ "\n"
          | none => " "⟩) := by
  cases j <;> cases message <;> rfl

/-- C2: for every verbosity (including `Quiet`) and every message,
`error` writes to the error channel the literal token "(error)" in bold
red, justified (right-padded to 12 columns on a terminal), followed by the
message, leaving the output channel untouched; whereas `status`,
`status_header` and `warn` emit nothing when verbosity is `Quiet`. -/
theorem error_ignores_verbosity (wrap : String → Nat → List String)
    (probe : AttyStream → Option Nat) (v : Verbosity) (st m : String)
    (outSink : OutSink) (cm : ColorMode) (sc : Bool) (ebuf : List OutEvent)
    (stype : AttyStream) (o e : OutSink) :
    (Shell.error wrap probeNone
      ⟨v, outSink, OutSink.Stream cm ⟨sc, false, ebuf⟩ stype true⟩ m =
      some ⟨v, outSink, OutSink.Stream cm
        ⟨sc, false, ebuf ++
          [OutEvent.reset, OutEvent.set_color ⟨true, some Color.Red⟩,
           OutEvent.text (padLeft "(error)" JUSTIFY_STATUS_LEN),
           OutEvent.reset, OutEvent.text (" " ++ m ++ "\n")]⟩ stype true⟩) ∧
    (Shell.status wrap probe ⟨Verbosity.Quiet, o, e⟩ st m =
      some ⟨Verbosity.Quiet, o, e⟩) ∧
    (Shell.status_header wrap probe ⟨Verbosity.Quiet, o, e⟩ st =
      some ⟨Verbosity.Quiet, o, e⟩) ∧
    (Shell.warn wrap probe ⟨Verbosity.Quiet, o, e⟩ m =
      some ⟨Verbosity.Quiet, o, e⟩) := by
  refine ⟨?_, rfl, rfl, rfl⟩
  simp [Shell.error, OutSink.print, OutSink.width, probeNone]

/-- C9: every public message operation returns normally even when the
underlying sink print fails with an I/O error: the failure is discarded and
the shell is left as it was (never propagated to the caller). -/
theorem print_failure_swallowed (wrap : String → Nat → List String)
    (probe : AttyStream → Option Nat) (sh : Shell) (st m : String) :
    (sh.out.print wrap probe st (some m) Color.Green true =
        PrintResult.ioErr → Shell.status wrap probe sh st m = some sh) ∧
    (sh.out.print wrap probe st none Color.Cyan true =
        PrintResult.ioErr → Shell.status_header wrap probe sh st = some sh) ∧
    (sh.out.print wrap probe "(warning)" (some m) Color.Yellow true =
        PrintResult.ioErr → Shell.warn wrap probe sh m = some sh) ∧
    (sh.err.print wrap probe "(error)" (some m) Color.Red true =
        PrintResult.ioErr → Shell.error wrap probe sh m = some sh) ∧
    (sh.out.print wrap probe "(note)" (some m) Color.Cyan true =
        PrintResult.ioErr → Shell.note wrap probe sh m = some sh) := by
  refine ⟨?_, ?_, ?_, ?_, ?_⟩ <;> intro h <;>
    cases hv : sh.verbosity <;>
    simp [Shell.status, Shell.status_header, Shell.warn, Shell.error,
      Shell.note, Shell.print, hv, h]

/-- C9 witness: on a shell whose sinks fail on every write, all five
message operations still return the shell unchanged. -/
theorem print_failure_swallowed_witness :
    Shell.status wrap1 probeNone failingShell "a" "b" = some failingShell ∧
    Shell.status_header wrap1 probeNone failingShell "a" = some failingShell ∧
    Shell.warn wrap1 probeNone failingShell "b" = some failingShell ∧
    Shell.error wrap1 probeNone failingShell "b" = some failingShell ∧
    Shell.note wrap1 probeNone failingShell "b" = some failingShell :=
  ⟨(print_failure_swallowed wrap1 probeNone failingShell "a" "b").1 rfl,
   (print_failure_swallowed wrap1 probeNone failingShell "a" "b").2.1 rfl,
   (print_failure_swallowed wrap1 probeNone failingShell "a" "b").2.2.1 rfl,
   (print_failure_swallowed wrap1 probeNone failingShell "a" "b").2.2.2.1 rfl,
   (print_failure_swallowed wrap1 probeNone failingShell "a" "b").2.2.2.2 rfl⟩

/-- C10: for every message operation and all inputs, a shell with verbosity
`Verbose` produces exactly the same sink contents as the same shell with
verbosity `Normal`: the two levels are observationally equivalent here. -/
theorem verbose_normal_equiv (wrap : String → Nat → List String)
    (probe : AttyStream → Option Nat) (o e : OutSink) (st m : String) :
    ((Shell.status wrap probe ⟨Verbosity.Verbose, o, e⟩ st m).map
        fun sh => (sh.out, sh.err)) =
      ((Shell.status wrap probe ⟨Verbosity.Normal, o, e⟩ st m).map
        fun sh => (sh.out, sh.err)) ∧
    ((Shell.status_header wrap probe ⟨Verbosity.Verbose, o, e⟩ st).map
        fun sh => (sh.out, sh.err)) =
      ((Shell.status_header wrap probe ⟨Verbosity.Normal, o, e⟩ st).map
        fun sh => (sh.out, sh.err)) ∧
    ((Shell.warn wrap probe ⟨Verbosity.Verbose, o, e⟩ m).map
        fun sh => (sh.out, sh.err)) =
      ((Shell.warn wrap probe ⟨Verbosity.Normal, o, e⟩ m).map
        fun sh => (sh.out, sh.err)) ∧
    ((Shell.error wrap probe ⟨Verbosity.Verbose, o, e⟩ m).map
        fun sh => (sh.out, sh.err)) =
      ((Shell.error wrap probe ⟨Verbosity.Normal, o, e⟩ m).map
        fun sh => (sh.out, sh.err)) ∧
    ((Shell.note wrap probe ⟨Verbosity.Verbose, o, e⟩ m).map
        fun sh => (sh.out, sh.err)) =
      ((Shell.note wrap probe ⟨Verbosity.Normal, o, e⟩ m).map
        fun sh => (sh.out, sh.err)) := by
  refine ⟨?_, ?_, ?_, ?_, ?_⟩
  · simp only [Shell.status, Shell.print]
    cases OutSink.print wrap probe o st (some m) Color.Green true <;> rfl
  · simp only [Shell.status_header, Shell.print]
    cases OutSink.print wrap probe o st none Color.Cyan true <;> rfl
  · simp only [Shell.warn, Shell.print]
    cases OutSink.print wrap probe o "(warning)" (some m) Color.Yellow true <;>
      rfl
  · simp only [Shell.error]
    cases OutSink.print wrap probe e "(error)" (some m) Color.Red true <;> rfl
  · simp only [Shell.note, Shell.print]
    cases OutSink.print wrap probe o "(note)" (some m) Color.Cyan true <;> rfl

/-- C6: parsing a `ColorMode` succeeds for exactly the tokens "auto",
"always", "never" compared case-insensitively (via lowercasing, as the code
does), yielding `Auto`/`Always`/`Never` respectively, and fails on every
other input with a `ParseFailure` whose field is "color mode" and whose
value is the original input string. -/
theorem from_str_cases (s : String) :
    (ColorMode.from_str s = Except.ok ColorMode.Auto ↔
      toLowercase s = "auto") ∧
    (ColorMode.from_str s = Except.ok ColorMode.Always ↔
      toLowercase s = "always") ∧
    (ColorMode.from_str s = Except.ok ColorMode.Never ↔
      toLowercase s = "never") ∧
    (toLowercase s ≠ "auto" → toLowercase s ≠ "always" →
      toLowercase s ≠ "never" →
      ColorMode.from_str s = Except.error (ParseFailure.new "color mode" s)) := by
  by_cases h1 : toLowercase s = "auto" <;>
    by_cases h2 : toLowercase s = "always" <;>
      by_cases h3 : toLowercase s = "never" <;>
        simp_all [ColorMode.from_str]

/-- C6 witness: the uppercase token "AUTO" parses to `Auto`, and the token
"maybe" fails with field "color mode" and value "maybe". -/
theorem from_str_cases_witness :
    ColorMode.from_str "AUTO" = Except.ok ColorMode.Auto ∧
    ColorMode.from_str "maybe" =
      Except.error (ParseFailure.new "color mode" "maybe") :=
  ⟨(from_str_cases "AUTO").1.mpr (by decide),
   (from_str_cases "maybe").2.2.2 (by decide) (by decide) (by decide)⟩

/-- Concatenation of a list of strings (used to state the wrapped-line
layout without the loop's first-line flag). -/
def concatLines : List String → String
  | [] => ""
  | a :: rest => a ++ concatLines rest

lemma emitLines_false (indent : String) (ls : List String) :
    emitLines indent false ls =
      concatLines (ls.map fun x => indent ++ " " ++ x ++ "\n") := by
  induction ls with
  | nil => rfl
  | cons a rest ih => simp [emitLines, concatLines, ih]

/-- C7: for a stream-sink print with a message on a terminal: when the
width probe reports no width, the message is emitted as a single space, the
message, and a newline (no wrapping); when the probe reports width `w` (and
the wrap width does not underflow), the first wrapped line is prefixed by a
single space and every subsequent wrapped line by `occupied_width` spaces
plus one more space, each line terminated by a newline. -/
theorem stream_print_message_layout (wrap : String → Nat → List String)
    (probe : AttyStream → Option Nat) (cm : ColorMode) (sc : Bool)
    (ebuf : List OutEvent) (stype : AttyStream) (st m l : String)
    (ls : List String) (c : Color) (j : Bool) (w : Nat) :
    (probe stype = none →
      OutSink.print wrap probe (OutSink.Stream cm ⟨sc, false, ebuf⟩ stype true)
          st (some m) c j =
        PrintResult.ok (OutSink.Stream cm
          ⟨sc, false,
            ebuf ++ [OutEvent.reset, OutEvent.set_color ⟨true, some c⟩]
              ++ (if j then [OutEvent.text (padLeft st JUSTIFY_STATUS_LEN)]
                  else [OutEvent.text st, OutEvent.set_color ⟨true, none⟩,
                        OutEvent.text ":"])
              ++ [OutEvent.reset, OutEvent.text (" " ++ m ++ "\n")]⟩
          stype true)) ∧
    (probe stype = some w → JUSTIFY_STATUS_LEN + 1 ≤ w →
      wrap m (w - (JUSTIFY_STATUS_LEN + 1)) = l :: ls →
      OutSink.print wrap probe (OutSink.Stream cm ⟨sc, false, ebuf⟩ stype true)
          st (some m) c true =
        PrintResult.ok (OutSink.Stream cm
          ⟨sc, false,
            ebuf ++ [OutEvent.reset, OutEvent.set_color ⟨true, some c⟩,
                     OutEvent.text (padLeft st JUSTIFY_STATUS_LEN),
                     OutEvent.reset,
                     OutEvent.text ((" " ++ l ++ "\n") ++ concatLines
                       (ls.map fun x =>
                         spaces JUSTIFY_STATUS_LEN ++ " " ++ x ++ "\n"))]⟩
          stype true)) ∧
    (probe stype = some w → st.length + 1 + 1 ≤ w →
      wrap m (w - (st.length + 1 + 1)) = l :: ls →
      OutSink.print wrap probe (OutSink.Stream cm ⟨sc, false, ebuf⟩ stype true)
          st (some m) c false =
        PrintResult.ok (OutSink.Stream cm
          ⟨sc, false,
            ebuf ++ [OutEvent.reset, OutEvent.set_color ⟨true, some c⟩,
                     OutEvent.text st, OutEvent.set_color ⟨true, none⟩,
                     OutEvent.text ":", OutEvent.reset,
                     OutEvent.text ((" " ++ l ++ "\n") ++ concatLines
                       (ls.map fun x =>
                         spaces (st.length + 1) ++ " " ++ x ++ "\n"))]⟩
          stype true)) := by
  refine ⟨?_, ?_, ?_⟩
  · intro h
    cases j <;> simp [OutSink.print, OutSink.width, h]
  · intro h hle hwrap
    simp [OutSink.print, OutSink.width, h, usizeSub, hle, hwrap,
      emitLines, emitLines_false]
  · intro h hle hwrap
    simp [OutSink.print, OutSink.width, h, usizeSub, hle, hwrap,
      emitLines, emitLines_false]

/-- C7 witness: concrete evaluations of all three branches — width unknown
(single unwrapped line), and width 30 with a one-line wrap, justified and
not. -/
theorem stream_print_message_layout_witness :
    (OutSink.print wrap1 probeNone
      (OutSink.Stream ColorMode.Auto ⟨true, false, []⟩ AttyStream.Stdout true)
      "Compiling" (some "hello") Color.Green true =
      PrintResult.ok (OutSink.Stream ColorMode.Auto
        ⟨true, false,
          [OutEvent.reset, OutEvent.set_color ⟨true, some Color.Green⟩,
           OutEvent.text "   Compiling", OutEvent.reset,
           OutEvent.text " hello\n"]⟩ AttyStream.Stdout true)) ∧
    (OutSink.print wrap1 (fun _ => some 30)
      (OutSink.Stream ColorMode.Auto ⟨true, false, []⟩ AttyStream.Stdout true)
      "Compiling" (some "hello") Color.Green true =
      PrintResult.ok (OutSink.Stream ColorMode.Auto
        ⟨true, false,
          [OutEvent.reset, OutEvent.set_color ⟨true, some Color.Green⟩,
           OutEvent.text "   Compiling", OutEvent.reset,
           OutEvent.text " hello\n"]⟩ AttyStream.Stdout true)) ∧
    (OutSink.print wrap1 (fun _ => some 30)
      (OutSink.Stream ColorMode.Auto ⟨true, false, []⟩ AttyStream.Stdout true)
      "Compiling" (some "hello") Color.Green false =
      PrintResult.ok (OutSink.Stream ColorMode.Auto
        ⟨true, false,
          [OutEvent.reset, OutEvent.set_color ⟨true, some Color.Green⟩,
           OutEvent.text "Compiling", OutEvent.set_color ⟨true, none⟩,
           OutEvent.text ":", OutEvent.reset,
           OutEvent.text " hello\n"]⟩ AttyStream.Stdout true)) :=
  ⟨(stream_print_message_layout wrap1 probeNone ColorMode.Auto true []
      AttyStream.Stdout "Compiling" "hello" "hello" [] Color.Green true 30).1
      rfl,
   (stream_print_message_layout wrap1 (fun _ => some 30) ColorMode.Auto true []
      AttyStream.Stdout "Compiling" "hello" "hello" [] Color.Green true 30).2.1
      rfl (by decide) rfl,
   (stream_print_message_layout wrap1 (fun _ => some 30) ColorMode.Auto true []
      AttyStream.Stdout "Compiling" "hello" "hello" [] Color.Green false 30).2.2
      rfl (by decide) rfl⟩

end Radvisor
